import Mathlib

/-!
# Verification of the MarketingAutomation-Lite Contact Decision Engine

Shallow embedding of the scoring engine (`app/services/scoring_engine.py`),
the lifecycle engine (`app/services/contact_lifecycle.py`) and the audience
builder (`app/services/audience_builder.py`), together with theorems settling
the specification claims about them.

Modelling conventions:
* Python floats are modelled as `ℚ` (all constants in the source are exact
  decimals); the single transcendental computation, `math.exp` in
  `calculate_recency_score`, is modelled with `Real.exp` and its 2-decimal
  rounding with Mathlib's `round` (the results are rational, so scores stay
  in `ℚ`).  Python's `round` is round-half-to-even while Mathlib's `round`
  is round-half-up; the two differ only on exact ties, which the claims
  never exercise.
* Timestamps are rationals measured in days (the source converts timedeltas
  to days by dividing `total_seconds()` by 86400 before any comparison).
* The SQLAlchemy session is modelled as an explicit `Store` record holding
  the relevant tables as lists; per-contact SQL filters/aggregates become
  list filters/folds.  Python exceptions are modelled with `Except String`;
  a function that returns normally (even a dict carrying an `"error"` key)
  returns `.ok`.
-/

namespace MALite

/-- A contact row (`app/models/__init__.py`, class `Contact`).  String
columns default to `""` and are non-nullable, so emptiness (not SQL NULL)
is the relevant "unset" notion.  `custom_fields` is JSON text holding a
dict; we model it post-decode as an association list. -/
structure Contact where
  id : String
  email : String := ""
  firstName : String := ""
  lastName : String := ""
  phone : String := ""
  country : String := ""
  language : String := "en"
  customFields : List (String × String) := []
  subscribed : Bool := true
  createdAt : ℚ := 0
  deriving Repr, DecidableEq

/-- A score-event row (`app/models/lead_score.py`, class `ScoreEvent`). -/
structure ScoreEvent where
  contactId : String
  eventType : String
  points : ℚ
  reason : String := ""
  ruleId : Option String := none
  createdAt : ℚ
  deriving Repr, DecidableEq

/-- An email-event row (`app/models/__init__.py`, class `EmailEvent`):
the lifecycle engine aggregates these, not score events. -/
structure EmailEvent where
  contactId : String
  eventType : String
  createdAt : ℚ
  deriving Repr, DecidableEq

/-- The materialized per-contact score row (`app/models/lead_score.py`,
class `ContactScore`), with the model's column defaults. -/
structure ContactScore where
  contactId : String
  totalScore : ℚ := 0
  engagementScore : ℚ := 0
  profileScore : ℚ := 0
  recencyScore : ℚ := 0
  grade : String := "C"
  lifecycleStage : String := "subscriber"
  lastActivityAt : Option ℚ := none
  scoreUpdatedAt : Option ℚ := none
  deriving Repr, DecidableEq

-- ── Grade / lifecycle thresholds (scoring_engine.py lines 16-33) ──

/-- `GRADE_THRESHOLDS` from `scoring_engine.py`. -/
def GRADE_THRESHOLDS : List (ℚ × String) :=
  [(90, "A+"), (80, "A"), (70, "B+"), (60, "B"), (45, "C"), (25, "D"), (0, "F")]

/-- `LIFECYCLE_THRESHOLDS` from `scoring_engine.py`. -/
def LIFECYCLE_THRESHOLDS : List (ℚ × String) :=
  [(90, "evangelist"), (70, "customer"), (55, "sql"), (40, "mql"),
   (20, "lead"), (0, "subscriber")]

/-- First-match scan used by `_score_to_grade` / `_score_to_lifecycle`:
return the label of the first threshold the score meets. -/
def firstThreshold (score : ℚ) (fallback : String) :
    List (ℚ × String) → String
  | [] => fallback
  | (t, label) :: rest =>
      if score ≥ t then label else firstThreshold score fallback rest

/-- `_score_to_grade` (scoring_engine.py lines 36-40). -/
def scoreToGrade (score : ℚ) : String :=
  firstThreshold score "F" GRADE_THRESHOLDS

/-- `_score_to_lifecycle` (scoring_engine.py lines 43-50): never
auto-demote from customer/evangelist, otherwise first matching threshold. -/
def scoreToLifecycle (score : ℚ) (current : String) : String :=
  if current = "customer" ∨ current = "evangelist" then current
  else firstThreshold score "subscriber" LIFECYCLE_THRESHOLDS

-- ── Profile completeness (scoring_engine.py lines 54-76) ──

/-- Python truthiness/strip test used by `calculate_profile_score`: the
field counts when `s.strip()` is non-empty, i.e. when the string contains
some non-whitespace character. -/
def nonBlank (s : String) : Bool :=
  s.toList.any (fun ch => !ch.isWhitespace)

/-- `calculate_profile_score` (scoring_engine.py lines 54-76).  The email
check is bare truthiness (no strip); `custom_fields` is the decoded dict
(decode failures in the source yield the empty dict, i.e. the empty list
here). -/
def calculateProfileScore (c : Contact) : ℚ :=
  min 20 ((if c.email ≠ "" then 4 else 0)
    + (if nonBlank c.firstName then 4 else 0)
    + (if nonBlank c.lastName then 3 else 0)
    + (if nonBlank c.phone then 3 else 0)
    + (if nonBlank c.country then 3 else 0)
    + (if c.customFields.length ≥ 2 then 3 else 0))

-- ── Recency scoring (scoring_engine.py lines 80-93) ──

/-- `round(x, 2)` on the decay value: Python rounds the float to 2 decimal
places; the result is rational. -/
noncomputable def recencyDecay (daysAgo : ℚ) : ℚ :=
  (round ((2000 : ℝ) * Real.exp (-(3 / 100) * (daysAgo : ℝ))) : ℚ) / 100

/-- `calculate_recency_score` (scoring_engine.py lines 80-93), as a function
of the current time and the (optional) last-activity time, both in days.
`days_ago = (now - last_activity).total_seconds() / 86400`. -/
noncomputable def calculateRecencyScore (now : ℚ) (lastActivity : Option ℚ) : ℚ :=
  match lastActivity with
  | none => 0
  | some t =>
      let daysAgo := now - t
      if daysAgo ≤ 0 then 20
      else if daysAgo ≥ 90 then 0
      else recencyDecay daysAgo

-- ── Audience model (audience_builder.py lines 32-53) ──

/-- A decoded scalar JSON value, after the `json.loads` attempt in
`_build_condition` (a string that fails to decode stays a string). -/
inductive AVal where
  | s (v : String)
  | b (v : Bool)
  | n (v : ℚ)
  deriving Repr, DecidableEq

/-- A decoded rule value: a scalar or a flat list (the only shape any
operator ever consumes — `in`/`not_in` against a list of scalars). -/
inductive RuleValue where
  | ofVal (v : AVal)
  | listV (vs : List AVal)
  deriving Repr, DecidableEq

/-- A decoded audience rule dict `(field, operator, value)`.  The source
stores rules as JSON text and decodes them in `build_query`; we model them
post-decode.  A missing `field`/`operator` key and an empty string are both
falsy to `rule.get(...)`-based validation, so we model both as `""`. -/
structure RuleDef where
  field : String
  operator : String
  value : RuleValue := .ofVal (.s "")
  deriving Repr, DecidableEq

/-- An audience row (`audience_builder.py`, class `Audience`), with the
column defaults. -/
structure Audience where
  id : String
  name : String
  rules : List RuleDef := []
  matchType : String := "all"
  excludeUnsubscribed : Bool := true
  excludeSuppressed : Bool := true
  excludeBounced : Bool := true
  estimatedSize : ℕ := 0
  lastEstimatedAt : Option ℚ := none
  deriving Repr, DecidableEq

/-- The relational store visible to the three engines: one list per table.
Suppression entries are reduced to their email key, the only column the
engines consult. -/
structure Store where
  contacts : List Contact := []
  scoreEvents : List ScoreEvent := []
  contactScores : List ContactScore := []
  emailEvents : List EmailEvent := []
  audiences : List Audience := []
  suppression : List String := []
  deriving Repr, DecidableEq

/-- `select(ContactScore).where(contact_id == cid)` + `scalar_one_or_none`:
the row for a contact (rows are unique per contact by schema). -/
def findScore (db : Store) (cid : String) : Option ContactScore :=
  db.contactScores.find? (fun cs => cs.contactId = cid)

/-- `select(Contact).where(Contact.id == cid)` + `scalar_one_or_none`. -/
def findContact (db : Store) (cid : String) : Option Contact :=
  db.contacts.find? (fun c => c.id = cid)

/-- Upsert helper: replace the (unique) score row for `cs.contactId`, or
append it if absent — the effect of mutating the selected ORM row (resp.
`db.add`) followed by commit. -/
def putScore (db : Store) (cs : ContactScore) : Store :=
  if (findScore db cs.contactId).isSome then
    { db with contactScores :=
        db.contactScores.map (fun old =>
          if old.contactId = cs.contactId then cs else old) }
  else
    { db with contactScores := db.contactScores ++ [cs] }

-- ── record_score_event (scoring_engine.py lines 97-145) ──

/-- The score row as written by `record_score_event` (lines 117-142): the
existing row, or a fresh one with the model's column defaults (in
particular `profile_score = 0`), with engagement clamped at 0 after adding
`points`, `last_activity_at` set to now, recency recomputed, total =
engagement + profile + recency, and grade/lifecycle re-derived.
`profile_score` is never recomputed on this path. -/
noncomputable def updatedScore (db : Store) (contactId : String)
    (points now : ℚ) : ContactScore :=
  let cs0 : ContactScore :=
    (findScore db contactId).getD
      { contactId := contactId, totalScore := 0, engagementScore := 0 }
  let engagement := max 0 (cs0.engagementScore + points)
  let recency := calculateRecencyScore now (some now)
  let total := engagement + cs0.profileScore + recency
  { cs0 with
    engagementScore := engagement,
    lastActivityAt := some now,
    recencyScore := recency,
    totalScore := total,
    grade := scoreToGrade total,
    lifecycleStage := scoreToLifecycle total cs0.lifecycleStage,
    scoreUpdatedAt := some now }

/-- `record_score_event`: append the score event, then upsert the updated
score row (`updatedScore`). -/
noncomputable def recordScoreEvent (db : Store) (contactId eventType : String)
    (points : ℚ) (reason : String) (ruleId : Option String)
    (now : ℚ) : Store × ScoreEvent :=
  let event : ScoreEvent :=
    { contactId := contactId, eventType := eventType, points := points,
      reason := reason, ruleId := ruleId, createdAt := now }
  let db1 := { db with scoreEvents := db.scoreEvents ++ [event] }
  (putScore db1 (updatedScore db contactId points now), event)

-- ── recalculate_contact_score (scoring_engine.py lines 148-203) ──

/-- Events of one contact, in table order. -/
def eventsOf (db : Store) (cid : String) : List ScoreEvent :=
  db.scoreEvents.filter (fun e => e.contactId = cid)

/-- `select(func.max(ScoreEvent.created_at))` for one contact. -/
def lastEventAt (db : Store) (cid : String) : Option ℚ :=
  ((eventsOf db cid).map (fun e => e.createdAt)).max?

/-- The score row as rebuilt by `recalculate_contact_score` (lines
156-199) for an existing contact `c`: engagement is the sum of all the
contact's score events floored at 0 only once, `profile_score` is
recomputed from the current profile, `recency_score` from the most recent
event; the stored lifecycle stage (default `"subscriber"`) is fed back
into `_score_to_lifecycle`. -/
noncomputable def recalcScore (db : Store) (c : Contact) (now : ℚ) :
    ContactScore :=
  let eventsSum := ((eventsOf db c.id).map (fun e => e.points)).sum
  let profileScore := calculateProfileScore c
  let lastEvent := lastEventAt db c.id
  let recencyScore := calculateRecencyScore now lastEvent
  let cs0 : ContactScore :=
    (findScore db c.id).getD { contactId := c.id }
  let engagement := max 0 eventsSum
  let total := engagement + profileScore + recencyScore
  { cs0 with
    engagementScore := engagement,
    profileScore := profileScore,
    recencyScore := recencyScore,
    totalScore := total,
    grade := scoreToGrade total,
    lifecycleStage := scoreToLifecycle total cs0.lifecycleStage,
    lastActivityAt := lastEvent,
    scoreUpdatedAt := some now }

/-- `recalculate_contact_score`: raises (`Except.error`, the `ValueError`
mapped to HTTP 404 by the request layer) when the contact does not exist;
otherwise upserts `recalcScore`. -/
noncomputable def recalculateContactScore (db : Store) (contactId : String)
    (now : ℚ) : Except String (Store × ContactScore) :=
  match findContact db contactId with
  | none => .error "Contact not found"
  | some contact =>
      .ok (putScore db (recalcScore db contact now), recalcScore db contact now)

-- ── Lifecycle engine (contact_lifecycle.py) ──

/-- `TransitionRule` dataclass (contact_lifecycle.py lines 49-59).  Stages
are the string values of the `LifecycleStage` enum. -/
structure TransitionRule where
  fromStage : String
  toStage : String
  minScore : ℚ := 0
  minOpens : ℕ := 0
  minClicks : ℕ := 0
  minDaysInStage : ℕ := 0
  maxInactiveDays : Option ℤ := none
  description : String := ""
  deriving Repr, DecidableEq

/-- `DEFAULT_RULES` (contact_lifecycle.py lines 63-113). -/
def DEFAULT_RULES : List TransitionRule :=
  [{ fromStage := "new", toStage := "subscriber", minScore := 5,
     description := "Confirmed signup or first page view" },
   { fromStage := "subscriber", toStage := "lead", minOpens := 2, minScore := 15,
     description := "Opened 2+ emails, showing interest" },
   { fromStage := "lead", toStage := "mql", minClicks := 3, minScore := 35,
     minDaysInStage := 3, description := "Clicked 3+ links, score above 35" },
   { fromStage := "mql", toStage := "sql", minScore := 55, minClicks := 5,
     minDaysInStage := 5, description := "High engagement, ready for sales" },
   { fromStage := "sql", toStage := "opportunity", minScore := 70,
     minDaysInStage := 3, description := "Very high engagement, active opportunity" },
   { fromStage := "opportunity", toStage := "customer", minScore := 80,
     description := "Converted - marked as customer" },
   { fromStage := "customer", toStage := "evangelist", minScore := 90,
     minClicks := 10, description := "Top advocate with highest engagement" }]

/-- `DORMANCY_RULES` (contact_lifecycle.py lines 116-141). -/
def DORMANCY_RULES : List TransitionRule :=
  [{ fromStage := "subscriber", toStage := "dormant", maxInactiveDays := some 60,
     description := "No engagement for 60 days" },
   { fromStage := "lead", toStage := "dormant", maxInactiveDays := some 45,
     description := "No engagement for 45 days" },
   { fromStage := "mql", toStage := "dormant", maxInactiveDays := some 30,
     description := "No engagement for 30 days" },
   { fromStage := "sql", toStage := "dormant", maxInactiveDays := some 21,
     description := "No engagement for 21 days" }]

/-- `TransitionResult` dataclass (contact_lifecycle.py lines 144-162).  The
formatted human-readable `reason` string is omitted from the model. -/
structure TransitionResult where
  contactId : String
  previousStage : String
  newStage : String
  transitioned : Bool
  ruleDescription : String := ""
  deriving Repr, DecidableEq

/-- The dict returned by `get_contact_engagement` (lines 166-247). -/
structure Engagement where
  totalOpens : ℕ := 0
  totalClicks : ℕ := 0
  totalBounces : ℕ := 0
  totalUnsubscribes : ℕ := 0
  lastOpenAt : Option ℚ := none
  lastClickAt : Option ℚ := none
  lastActivityAt : Option ℚ := none
  daysSinceLastActivity : Option ℤ := none
  engagementVelocity : ℚ := 0
  deriving Repr, DecidableEq

/-- `get_contact_engagement` (contact_lifecycle.py lines 166-247):
aggregate the contact's `EmailEvent` rows with `created_at >= now - days`
(no upper bound).  `days_since_last_activity` is the whole-day part of the
elapsed time (`timedelta.days` floors towards minus infinity); velocity is
events per week rounded to 2 decimals. -/
def getContactEngagement (db : Store) (cid : String) (days : ℚ) (now : ℚ) :
    Engagement :=
  let evs := db.emailEvents.filter
    (fun e => e.contactId = cid ∧ now - days ≤ e.createdAt)
  let ofType (t : String) : List EmailEvent := evs.filter (fun e => e.eventType = t)
  let lastOf (l : List EmailEvent) : Option ℚ :=
    (l.map (fun e => e.createdAt)).max?
  let lastActivity := lastOf evs
  let weeks := max (days / 7) 1
  { totalOpens := (ofType "opened").length,
    totalClicks := (ofType "clicked").length,
    totalBounces := (ofType "bounced").length,
    totalUnsubscribes := (ofType "unsubscribed").length,
    lastOpenAt := lastOf (ofType "opened"),
    lastClickAt := lastOf (ofType "clicked"),
    lastActivityAt := lastActivity,
    daysSinceLastActivity := lastActivity.map (fun t => ⌊now - t⌋),
    engagementVelocity := ((round ((100 : ℚ) * (evs.length / weeks)) : ℚ) / 100) }

/-- Inner test of the dormancy scan (lines 271-272): `max_inactive_days`
truthy (non-None and non-zero) and a non-None `days_since_last_activity`
meeting it. -/
def dormancyFires (r : TransitionRule) (daysSince : Option ℤ) : Bool :=
  match r.maxInactiveDays, daysSince with
  | some m, some d => decide (m ≠ 0) && decide (m ≤ d)
  | _, _ => false

/-- First dormancy rule that fires (see `dormancyFires`). -/
def dormancyCheck (stage : String) (daysSince : Option ℤ) :
    List TransitionRule → Option TransitionRule
  | [] => none
  | r :: rest =>
      if r.fromStage = stage ∧ dormancyFires r daysSince then some r
      else dormancyCheck stage daysSince rest

/-- The progression scan of `evaluate_lifecycle` (lines 294-313): first
rule whose `from_stage` matches and whose score/opens/clicks thresholds
are all met.  (`min_days_in_stage` is never consulted by the source.) -/
def progressionCheck (stage : String) (score : ℚ) (opens clicks : ℕ) :
    List TransitionRule → Option TransitionRule
  | [] => none
  | r :: rest =>
      if r.fromStage = stage ∧ ¬(score < r.minScore) ∧
          ¬(opens < r.minOpens) ∧ ¬(clicks < r.minClicks) then
        some r
      else progressionCheck stage score opens clicks rest

/-- `evaluate_lifecycle` (contact_lifecycle.py lines 251-321): dormancy
first, then churn-on-unsubscribe, then first matching progression rule
(`custom_rules or DEFAULT_RULES` — an empty custom list is falsy and falls
back to the defaults), else a non-transition. -/
def evaluateLifecycle (db : Store) (contactId : String) (currentStage : String)
    (score : ℚ) (customRules : Option (List TransitionRule)) (now : ℚ) :
    TransitionResult :=
  let rules := match customRules with
    | some (r :: rest) => r :: rest
    | _ => DEFAULT_RULES
  let engagement := getContactEngagement db contactId 90 now
  match dormancyCheck currentStage engagement.daysSinceLastActivity DORMANCY_RULES with
  | some r =>
      { contactId := contactId, previousStage := currentStage,
        newStage := r.toStage, transitioned := true,
        ruleDescription := r.description }
  | none =>
      if engagement.totalUnsubscribes > 0 ∧ currentStage ≠ "churned" then
        { contactId := contactId, previousStage := currentStage,
          newStage := "churned", transitioned := true,
          ruleDescription := "Auto-churn on unsubscribe" }
      else
        match progressionCheck currentStage score engagement.totalOpens
            engagement.totalClicks rules with
        | some r =>
            { contactId := contactId, previousStage := currentStage,
              newStage := r.toStage, transitioned := true,
              ruleDescription := r.description }
        | none =>
            { contactId := contactId, previousStage := currentStage,
              newStage := currentStage, transitioned := false }

-- ── process_lifecycle_batch (contact_lifecycle.py lines 325-373) ──

/-- `order_by(score_updated_at.desc().nullslast())` as a Bool ordering. -/
def byUpdatedDesc (a b : ContactScore) : Bool :=
  match a.scoreUpdatedAt, b.scoreUpdatedAt with
  | some x, some y => y ≤ x
  | some _, none => true
  | none, some _ => false
  | none, none => true

/-- The per-row body of the batch loop (lines 352-364): evaluate (with
`lifecycle_stage or "new"` and `total_score or 0`) and update the stage on
a transition. -/
def batchStep (db : Store) (now : ℚ) (cs : ContactScore) : ContactScore :=
  let stage := if cs.lifecycleStage = "" then "new" else cs.lifecycleStage
  let tr := evaluateLifecycle db cs.contactId stage cs.totalScore none now
  if tr.transitioned then { cs with lifecycleStage := tr.newStage } else cs

/-- The summary dict returned by `process_lifecycle_batch`. -/
structure BatchReport where
  processed : ℕ
  transitioned : ℕ
  transitions : List TransitionResult
  deriving Repr, DecidableEq

/-- `process_lifecycle_batch`: take up to `limit` score rows ordered by
`score_updated_at` descending (nulls last), evaluate each, apply the
transitions, and report counts. -/
def processLifecycleBatch (db : Store) (limit : ℕ) (now : ℚ) :
    Store × BatchReport :=
  let sorted := db.contactScores.mergeSort byUpdatedDesc
  let selected := sorted.take limit
  let results := selected.map (fun cs =>
    (cs, evaluateLifecycle db cs.contactId
      (if cs.lifecycleStage = "" then "new" else cs.lifecycleStage)
      cs.totalScore none now))
  let updated := results.map (fun p =>
    if p.2.transitioned then { p.1 with lifecycleStage := p.2.newStage } else p.1)
  let transitions := (results.filter (fun p => p.2.transitioned)).map (fun p => p.2)
  ({ db with contactScores := updated ++ sorted.drop limit },
   { processed := selected.length,
     transitioned := transitions.length,
     transitions := transitions })

-- ── Audience builder (audience_builder.py, class AudienceBuilder) ──

/-- `AudienceBuilder.VALID_FIELDS` (audience_builder.py lines 61-64). -/
def VALID_FIELDS : List String :=
  ["email", "first_name", "last_name", "phone", "country",
   "language", "subscribed", "created_at"]

/-- `AudienceBuilder.VALID_OPERATORS` (audience_builder.py lines 65-69).
Note the presence of `"between"`, which `_build_condition` never
implements. -/
def VALID_OPERATORS : List String :=
  ["eq", "neq", "contains", "starts_with", "ends_with",
   "gt", "lt", "gte", "lte", "in", "not_in", "between",
   "is_set", "not_set"]

/-- `_validate_rule` (audience_builder.py lines 105-117): check for a
truthy field, a truthy operator, then membership in the two valid sets;
`Except.error` models the raised `ValueError` (messages abbreviated). -/
def validateRule (r : RuleDef) : Except String Unit :=
  if r.field = "" then .error "Rule must have a field"
  else if r.operator = "" then .error "Rule must have an operator"
  else if r.field ∉ VALID_FIELDS then .error "Invalid field"
  else if r.operator ∉ VALID_OPERATORS then .error "Invalid operator"
  else .ok ()

/-- The `for rule in rules: self._validate_rule(rule)` loop: first error
wins. -/
def validateRules : List RuleDef → Except String Unit
  | [] => .ok ()
  | r :: rest =>
      match validateRule r with
      | .error m => .error m
      | .ok _ => validateRules rest

/-- `getattr(Contact, field_name, None)` restricted to the validated field
vocabulary (other ORM attributes exist in the source but are unreachable
through validated audiences; unknown names yield `none`, dropping the
condition exactly as the source does). -/
def contactField (c : Contact) : String → Option AVal
  | "email" => some (.s c.email)
  | "first_name" => some (.s c.firstName)
  | "last_name" => some (.s c.lastName)
  | "phone" => some (.s c.phone)
  | "country" => some (.s c.country)
  | "language" => some (.s c.language)
  | "subscribed" => some (.b c.subscribed)
  | "created_at" => some (.n c.createdAt)
  | _ => none

/-- Case-insensitive substring test (SQL `ILIKE` with both-sided
wildcards). -/
def strContainsCI (s pat : String) : Bool :=
  (s.toLower.toList.tails).any (fun t => pat.toLower.toList.isPrefixOf t)

/-- Equality as evaluated by the SQL engine on our non-nullable columns:
same-typed values compare structurally, differently-typed compare false. -/
def avalEq (a b : AVal) : Bool := a = b

/-- A column compared against a scalar-or-list rule value (a list value is
never equal to a scalar column). -/
def colEqVal (col : AVal) : RuleValue → Bool
  | .ofVal w => avalEq col w
  | .listV _ => false

/-- Ordering comparisons: numeric on numbers, lexicographic on strings
(the only column types reachable with `gt`/`lt`/`gte`/`lte` here),
`false` on mismatched types. -/
def avalLt (a b : AVal) : Bool :=
  match a, b with
  | .n x, .n y => decide (x < y)
  | .s x, .s y => decide (x < y)
  | _, _ => false

/-- One `{field, operator, value}` rule compiled against one contact:
`_build_condition` (audience_builder.py lines 119-166).  `none` models the
source returning `None` (unknown field attribute or unimplemented
operator — notably `"between"`), in which case the condition is dropped
from the query. -/
def buildCondition (c : Contact) (r : RuleDef) : Option Bool :=
  let v := r.value
  match contactField c r.field with
  | none => none
  | some col =>
      match r.operator with
      | "eq" => some (colEqVal col v)
      | "neq" => some (!colEqVal col v)
      | "contains" =>
          some (match col with | .s s => strContainsCI s (toStringVal v) | _ => false)
      | "starts_with" =>
          some (match col with
            | .s s => s.toLower.startsWith (toStringVal v).toLower
            | _ => false)
      | "ends_with" =>
          some (match col with
            | .s s => s.toLower.endsWith (toStringVal v).toLower
            | _ => false)
      | "gt" =>
          some (match v with | .ofVal w => avalLt w col | .listV _ => false)
      | "lt" =>
          some (match v with | .ofVal w => avalLt col w | .listV _ => false)
      | "gte" =>
          some (match v with | .ofVal w => !avalLt col w | .listV _ => false)
      | "lte" =>
          some (match v with | .ofVal w => !avalLt w col | .listV _ => false)
      | "in" =>
          some (match v with
            | .listV vs => vs.any (avalEq col)
            | .ofVal w => avalEq col w)
      | "not_in" =>
          some (match v with
            | .listV vs => !vs.any (avalEq col)
            | .ofVal w => !avalEq col w)
      | "is_set" => some (match col with | .s s => s ≠ "" | _ => true)
      | "not_set" => some (match col with | .s s => s = "" | _ => false)
      | _ => none
where
  /-- Python string interpolation of the value into the `ILIKE` pattern;
  the rendering of non-string values is immaterial to the claims. -/
  toStringVal : RuleValue → String
    | .ofVal (.s v) => v
    | .ofVal (.b true) => "True"
    | .ofVal (.b false) => "False"
    | .ofVal (.n _) => ""
    | .listV _ => ""

/-- `build_query` as a matching predicate (audience_builder.py lines
168-197): AND (`all`, the default for any other `match_type` string) or OR
(`any`) of the compiled conditions — an empty condition list constrains
nothing — then the unconditional exclusions: `exclude_unsubscribed`
requires `subscribed`, `exclude_suppressed` requires the email to be
absent from the suppression table.  `exclude_bounced` is never consulted
by the source. -/
def audienceMatches (db : Store) (a : Audience) (c : Contact) : Bool :=
  let conditions := a.rules.filterMap (fun r => buildCondition c r)
  let base :=
    if conditions.isEmpty then true
    else if a.matchType = "any" then conditions.any id
    else conditions.all id
  base
    && (!a.excludeUnsubscribed || c.subscribed)
    && (!a.excludeSuppressed || !db.suppression.contains c.email)

/-- `get_audience` (lines 231-235). -/
def getAudience (db : Store) (audienceId : String) : Option Audience :=
  db.audiences.find? (fun a => a.id = audienceId)

/-- Matching contacts, in table order (`get_contacts` without paging). -/
def matchingContacts (db : Store) (a : Audience) : List Contact :=
  db.contacts.filter (fun c => audienceMatches db a c)

/-- `get_contacts` (lines 213-218): `.limit(limit).offset(offset)`. -/
def getContacts (db : Store) (a : Audience) (limit offset : ℕ) : List Contact :=
  ((matchingContacts db a).drop offset).take limit

/-- `estimate_size` (lines 199-211): count the matching contacts, refresh
the cached estimate on the (persisted) audience row, return the count. -/
def estimateSize (db : Store) (a : Audience) (now : ℚ) : Store × ℕ :=
  let count := (matchingContacts db a).length
  let db' := { db with audiences := db.audiences.map (fun x =>
    if x.id = a.id then
      { x with estimatedSize := count, lastEstimatedAt := some now }
    else x) }
  (db', count)

/-- `create_audience` (lines 74-103): validate every rule first (raising
before anything is persisted), then insert the new audience row. -/
def createAudience (db : Store) (newId name : String) (rules : List RuleDef)
    (matchType : String := "all")
    (excludeUnsubscribed : Bool := true) (excludeSuppressed : Bool := true)
    (excludeBounced : Bool := true) : Except String (Store × Audience) :=
  match validateRules rules with
  | .error m => .error m
  | .ok _ =>
      let audience : Audience :=
        { id := newId, name := name, rules := rules, matchType := matchType,
          excludeUnsubscribed := excludeUnsubscribed,
          excludeSuppressed := excludeSuppressed,
          excludeBounced := excludeBounced }
      .ok ({ db with audiences := db.audiences ++ [audience] }, audience)

/-- Final step of `update_audience`: apply the truthy `match_type` change
and commit the updated row. -/
def finishUpdate (db : Store) (audienceId : String) (a : Audience)
    (matchType : Option String) : Except String (Store × Option Audience) :=
  let a' := match matchType with
    | some mt => if mt = "" then a else { a with matchType := mt }
    | none => a
  .ok ({ db with audiences := db.audiences.map (fun x =>
    if x.id = audienceId then a' else x) }, some a')

/-- `update_audience` (lines 251-271): `none` (not an error) on a missing
id; truthy `name` applied, then the new rules, if provided, are validated
(raising before anything is committed) and stored, then a truthy
`match_type`. -/
def updateAudience (db : Store) (audienceId : String)
    (name : Option String) (rules : Option (List RuleDef))
    (matchType : Option String) : Except String (Store × Option Audience) :=
  match getAudience db audienceId with
  | none => .ok (db, none)
  | some a0 =>
      let a1 := match name with
        | some n => if n = "" then a0 else { a0 with name := n }
        | none => a0
      match rules with
      | some rs =>
          (match validateRules rs with
           | .error m => .error m
           | .ok _ => finishUpdate db audienceId { a1 with rules := rs } matchType)
      | none => finishUpdate db audienceId a1 matchType

/-- `round(x, 4)` for the Jaccard index. -/
def round4 (q : ℚ) : ℚ := (round ((10000 : ℚ) * q) : ℚ) / 10000

/-- The dict returned by `overlap_analysis`: either the `"error"` payload
for a missing audience (returned, not raised) or the stats payload. -/
inductive OverlapResult where
  | errorDict (msg : String)
  | stats (sizeA sizeB overlap union : ℕ) (jaccard : ℚ)
  deriving Repr, DecidableEq

/-- The set of ids of the contacts matching an audience (the Python
`set()` of id rows). -/
def audienceIdSet (db : Store) (a : Audience) : Finset String :=
  ((matchingContacts db a).map (fun c => c.id)).toFinset

/-- `overlap_analysis` (audience_builder.py lines 273-302): evaluate both
audiences independently, intersect/union their id sets, and return the
sizes plus the Jaccard index rounded to 4 decimals (`0.0` for an empty
union).  The `Except` layer records that the source *returns* the error
dict for a missing audience rather than raising. -/
def overlapAnalysis (db : Store) (idA idB : String) :
    Except String OverlapResult := do
  match getAudience db idA, getAudience db idB with
  | some a, some b =>
      let setA := audienceIdSet db a
      let setB := audienceIdSet db b
      let overlap := (setA ∩ setB).card
      let unionC := (setA ∪ setB).card
      pure (.stats setA.card setB.card overlap unionC
        (if unionC = 0 then 0 else round4 ((overlap : ℚ) / (unionC : ℚ))))
  | _, _ => pure (.errorDict "Audience not found")

/-! ## Helper lemmas about the store -/

theorem findScore_eq_contactId {db : Store} {cid : String} {cs : ContactScore}
    (h : findScore db cid = some cs) : cs.contactId = cid := by
  have := List.find?_some h
  simpa using this

theorem find?_map_upsert (l : List ContactScore) (cs : ContactScore)
    (h : (l.find? (fun x => x.contactId = cs.contactId)).isSome) :
    (l.map (fun old => if old.contactId = cs.contactId then cs else old)).find?
      (fun x => x.contactId = cs.contactId) = some cs := by
  induction l with
  | nil => simp [List.find?] at h
  | cons x xs ih =>
      by_cases hx : x.contactId = cs.contactId
      · simp [hx, List.find?_cons_of_pos]
      · rw [List.find?_cons_of_neg _ (by simpa using hx)] at h
        simpa [hx, List.find?_cons_of_neg] using ih h

theorem find?_append_of_none {p : ContactScore → Bool}
    (l1 l2 : List ContactScore) (h : l1.find? p = none) :
    (l1 ++ l2).find? p = l2.find? p := by
  induction l1 with
  | nil => simp
  | cons x xs ih =>
      by_cases hx : p x
      · simp [List.find?_cons_of_pos, hx] at h
      · rw [List.find?_cons_of_neg _ (by simpa using hx)] at h
        simpa [hx, List.find?_cons_of_neg] using ih h

/-- After an upsert, looking the contact up yields exactly the written
row. -/
theorem findScore_putScore (db : Store) (cs : ContactScore) :
    findScore (putScore db cs) cs.contactId = some cs := by
  simp only [putScore]
  by_cases h : (findScore db cs.contactId).isSome
  · rw [if_pos h]
    simp only [findScore]
    exact find?_map_upsert _ _ (by simpa [findScore] using h)
  · rw [if_neg h]
    simp only [findScore]
    have hn : db.contactScores.find? (fun x => x.contactId = cs.contactId) = none := by
      simpa [findScore, Option.not_isSome_iff_eq_none] using h
    rw [find?_append_of_none _ _ hn]
    simp [List.find?]

/-- The row written by `record_score_event` keeps the contact id. -/
theorem updatedScore_contactId (db : Store) (cid : String) (pts now : ℚ) :
    (updatedScore db cid pts now).contactId = cid := by
  unfold updatedScore
  cases h : findScore db cid with
  | none => rfl
  | some cs0 => simpa using findScore_eq_contactId h

theorem recalcScore_contactId (db : Store) (c : Contact) (now : ℚ) :
    (recalcScore db c now).contactId = c.id := by
  unfold recalcScore
  cases h : findScore db c.id with
  | none => rfl
  | some cs0 => simpa using findScore_eq_contactId h

/-- `record_score_event` stores exactly `updatedScore`. -/
theorem recordScoreEvent_findScore (db : Store) (cid ty rs : String)
    (rid : Option String) (pts now : ℚ) :
    findScore (recordScoreEvent db cid ty pts rs rid now).1 cid
      = some (updatedScore db cid pts now) := by
  unfold recordScoreEvent
  have h := findScore_putScore
    { db with scoreEvents := db.scoreEvents ++
        [{ contactId := cid, eventType := ty, points := pts,
           reason := rs, ruleId := rid, createdAt := now }] }
    (updatedScore db cid pts now)
  rw [updatedScore_contactId] at h
  exact h

theorem findContact_eq_id {db : Store} {cid : String} {c : Contact}
    (h : findContact db cid = some c) : c.id = cid := by
  have := List.find?_some h
  simpa using this

/-- The score→stage threshold map exactly as the claim states it:
≥90 evangelist, ≥70 customer, ≥55 sql, ≥40 mql, ≥20 lead, else
subscriber. -/
def lifecycleOfScoreSpec (s : ℚ) : String :=
  if 90 ≤ s then "evangelist"
  else if 70 ≤ s then "customer"
  else if 55 ≤ s then "sql"
  else if 40 ≤ s then "mql"
  else if 20 ≤ s then "lead"
  else "subscriber"

/-- Away from customer/evangelist, `_score_to_lifecycle` is exactly the
fixed threshold map. -/
theorem scoreToLifecycle_spec (s : ℚ) (current : String)
    (h1 : current ≠ "customer") (h2 : current ≠ "evangelist") :
    scoreToLifecycle s current = lifecycleOfScoreSpec s := by
  unfold scoreToLifecycle
  rw [if_neg (by simp [h1, h2])]
  simp [firstThreshold, LIFECYCLE_THRESHOLDS, lifecycleOfScoreSpec, ge_iff_le]

/-- Claim C2: after either scoring operation the stored `total_score`
equals `engagement_score + profile_score + recency_score`: the row written
by `record_score_event` satisfies the equation (and is what lookup
returns), and so does the row written and returned by
`recalculate_contact_score`. -/
theorem claim_C2 (db : Store) (cid ty rs : String) (rid : Option String)
    (pts now : ℚ) :
    ((updatedScore db cid pts now).totalScore
      = (updatedScore db cid pts now).engagementScore
        + (updatedScore db cid pts now).profileScore
        + (updatedScore db cid pts now).recencyScore)
    ∧ findScore (recordScoreEvent db cid ty pts rs rid now).1 cid
        = some (updatedScore db cid pts now)
    ∧ ∀ (db' : Store) (cs : ContactScore),
        recalculateContactScore db cid now = .ok (db', cs) →
          cs.totalScore = cs.engagementScore + cs.profileScore + cs.recencyScore
          ∧ findScore db' cid = some cs := by
  refine ⟨rfl, recordScoreEvent_findScore db cid ty rs rid pts now, ?_⟩
  intro db' cs h
  unfold recalculateContactScore at h
  cases hc : findContact db cid with
  | none => rw [hc] at h; exact absurd h (by simp)
  | some c =>
      rw [hc] at h
      have hdb : putScore db (recalcScore db c now) = db' := by
        injection h with h'
        exact congrArg Prod.fst h'
      have hcs : recalcScore db c now = cs := by
        injection h with h'
        exact congrArg Prod.snd h'
      subst hcs
      refine ⟨rfl, ?_⟩
      rw [← hdb]
      have := findScore_putScore db (recalcScore db c now)
      rwa [recalcScore_contactId, findContact_eq_id hc] at this

/-- Concrete single-contact scenario store used by the witnesses. -/
def cW : Contact := { id := "c1", email := "ada@example.com" }

def dbW : Store := { contacts := [cW] }

/-- Witness for C2 at a concrete input: recalculating the score of the
(event-less) contact of `dbW` yields a row with
`total = engagement + profile + recency = 0 + 4 + 0`. -/
theorem claim_C2_witness :
    ∃ p : Store × ContactScore,
      recalculateContactScore dbW "c1" 0 = .ok p ∧
      p.2.totalScore = p.2.engagementScore + p.2.profileScore + p.2.recencyScore ∧
      findScore p.1 "c1" = some p.2 := by
  have hc : findContact dbW "c1" = some cW := by
    simp [findContact, dbW, cW, List.find?]
  have hEq : recalculateContactScore dbW "c1" 0
      = .ok (putScore dbW (recalcScore dbW cW 0), recalcScore dbW cW 0) := by
    unfold recalculateContactScore
    rw [hc]
  obtain ⟨-, -, h3⟩ := claim_C2 dbW "c1" "opened" "" none 5 0
  obtain ⟨ha, hb⟩ := h3 _ _ hEq
  exact ⟨_, hEq, ha, hb⟩

/-- Claim C9: for a contact whose current stage is not customer or
evangelist (including dormant and churned), both scoring operations set
the stage purely from the new total score via the fixed thresholds. -/
theorem claim_C9 (db : Store) (cid ty rs : String) (rid : Option String)
    (pts now : ℚ)
    (h1 : ((findScore db cid).getD
      { contactId := cid, totalScore := 0, engagementScore := 0 }).lifecycleStage
        ≠ "customer")
    (h2 : ((findScore db cid).getD
      { contactId := cid, totalScore := 0, engagementScore := 0 }).lifecycleStage
        ≠ "evangelist") :
    ((updatedScore db cid pts now).lifecycleStage
      = lifecycleOfScoreSpec (updatedScore db cid pts now).totalScore)
    ∧ findScore (recordScoreEvent db cid ty pts rs rid now).1 cid
        = some (updatedScore db cid pts now)
    ∧ ∀ c : Contact, findContact db cid = some c →
        (recalcScore db c now).lifecycleStage
          = lifecycleOfScoreSpec (recalcScore db c now).totalScore := by
  refine ⟨?_, recordScoreEvent_findScore db cid ty rs rid pts now, ?_⟩
  · show scoreToLifecycle _ _ = _
    exact scoreToLifecycle_spec _ _ h1 h2
  · intro c hc
    show scoreToLifecycle _ _ = _
    have hid := findContact_eq_id hc
    refine scoreToLifecycle_spec _ _ ?_ ?_
    · rw [hid]; exact h1
    · rw [hid]; exact h2

/-- Scenario store with a dormant zero-score contact. -/
def dbDormant : Store :=
  { contacts := [cW],
    contactScores := [{ contactId := "c1", lifecycleStage := "dormant" }] }

/-- Witness for C9: a single score event on the dormant contact of
`dbDormant` re-derives its stage from the fixed thresholds. -/
theorem claim_C9_witness :
    (updatedScore dbDormant "c1" 5 0).lifecycleStage
      = lifecycleOfScoreSpec (updatedScore dbDormant "c1" 5 0).totalScore :=
  (claim_C9 dbDormant "c1" "opened" "" none 5 0
    (by decide) (by decide)).1

/-- `_score_to_lifecycle` returns customer/evangelist unchanged. -/
theorem scoreToLifecycle_keep (s : ℚ) (current : String)
    (h : current = "customer" ∨ current = "evangelist") :
    scoreToLifecycle s current = current := by
  unfold scoreToLifecycle
  exact if_pos h

/-- A contact with no unsubscribe events has a zero unsubscribe count in
its engagement window. -/
theorem unsub_count_zero (db : Store) (cid : String) (days now : ℚ)
    (hnou : ∀ e ∈ db.emailEvents, e.contactId = cid → e.eventType ≠ "unsubscribed") :
    (getContactEngagement db cid days now).totalUnsubscribes = 0 := by
  simp only [getContactEngagement, List.length_eq_zero]
  rw [List.filter_eq_nil_iff]
  intro e he
  have he' := List.mem_filter.mp he
  have hcid : e.contactId = cid := by
    have := he'.2
    simp at this
    exact this.1
  simpa using hnou e he'.1 hcid

/-- No dormancy rule applies to the customer stage. -/
theorem dormancyCheck_customer (daysSince : Option ℤ) :
    dormancyCheck "customer" daysSince DORMANCY_RULES = none := by
  simp [dormancyCheck, DORMANCY_RULES]

/-- No default progression rule fires for a customer with score 0. -/
theorem progressionCheck_customer_zero (opens clicks : ℕ) :
    progressionCheck "customer" 0 opens clicks DEFAULT_RULES = none := by
  norm_num [progressionCheck, DEFAULT_RULES]

/-- Evaluating the lifecycle of a zero-score customer with no unsubscribe
events is a no-op. -/
theorem evaluateLifecycle_customer_noop (db : Store) (cid : String) (now : ℚ)
    (hnou : ∀ e ∈ db.emailEvents, e.contactId = cid → e.eventType ≠ "unsubscribed") :
    evaluateLifecycle db cid "customer" 0 none now
      = { contactId := cid, previousStage := "customer",
          newStage := "customer", transitioned := false } := by
  simp only [evaluateLifecycle]
  rw [dormancyCheck_customer]
  rw [if_neg (by simp [unsub_count_zero db cid 90 now hnou])]
  rw [progressionCheck_customer_zero]

/-- Claim C5: the customer/evangelist stages are promotion-only.  (1) A
customer with total score 0 and no unsubscribe events keeps its stage
across `process_lifecycle_batch`; (2) `record_score_event` and (3)
`recalculate_contact_score` never change a stage that is currently
customer or evangelist. -/
theorem claim_C5 (db : Store) (cid : String) (limit : ℕ) (now : ℚ)
    (hstage : ∀ cs ∈ db.contactScores, cs.contactId = cid →
      cs.lifecycleStage = "customer" ∧ cs.totalScore = 0)
    (hnou : ∀ e ∈ db.emailEvents, e.contactId = cid →
      e.eventType ≠ "unsubscribed") :
    (∀ cs' ∈ (processLifecycleBatch db limit now).1.contactScores,
      cs'.contactId = cid → cs'.lifecycleStage = "customer")
    ∧ (∀ (db2 : Store) (cid2 : String) (pts2 now2 : ℚ),
        (((findScore db2 cid2).getD
          { contactId := cid2, totalScore := 0, engagementScore := 0 }).lifecycleStage
            = "customer" ∨
         ((findScore db2 cid2).getD
          { contactId := cid2, totalScore := 0, engagementScore := 0 }).lifecycleStage
            = "evangelist") →
        (updatedScore db2 cid2 pts2 now2).lifecycleStage
          = ((findScore db2 cid2).getD
            { contactId := cid2, totalScore := 0, engagementScore := 0 }).lifecycleStage)
    ∧ (∀ (db2 : Store) (c : Contact) (now2 : ℚ),
        (((findScore db2 c.id).getD { contactId := c.id }).lifecycleStage
            = "customer" ∨
         ((findScore db2 c.id).getD { contactId := c.id }).lifecycleStage
            = "evangelist") →
        (recalcScore db2 c now2).lifecycleStage
          = ((findScore db2 c.id).getD { contactId := c.id }).lifecycleStage) := by
  refine ⟨?_, ?_, ?_⟩
  · intro cs' hmem hcid
    simp only [processLifecycleBatch] at hmem
    simp only [List.mem_append] at hmem
    have hsorted : ∀ x ∈ db.contactScores.mergeSort byUpdatedDesc,
        x ∈ db.contactScores := fun x hx =>
      (List.mergeSort_perm db.contactScores byUpdatedDesc).subset hx
    rcases hmem with hupd | hrest
    · simp only [List.mem_map] at hupd
      obtain ⟨p, hp, hcs'⟩ := hupd
      obtain ⟨cs, hcsmem, hpdef⟩ := hp
      have hcsin : cs ∈ db.contactScores :=
        hsorted cs (List.take_subset _ _ hcsmem)
      have hcontact : cs.contactId = cid := by
        have : cs'.contactId = cs.contactId := by
          subst hpdef
          subst hcs'
          by_cases ht : (evaluateLifecycle db cs.contactId
              (if cs.lifecycleStage = "" then "new" else cs.lifecycleStage)
              cs.totalScore none now).transitioned
          · simp [ht]
          · simp [ht]
        rw [← this]; exact hcid
      obtain ⟨hst, htot⟩ := hstage cs hcsin hcontact
      have heval : evaluateLifecycle db cs.contactId
          (if cs.lifecycleStage = "" then "new" else cs.lifecycleStage)
          cs.totalScore none now
          = { contactId := cs.contactId, previousStage := "customer",
              newStage := "customer", transitioned := false } := by
        rw [hst, htot]
        rw [if_neg (by simp)]
        exact evaluateLifecycle_customer_noop db cs.contactId now
          (fun e he hc => hnou e he (hcontact ▸ hc))
      subst hpdef
      subst hcs'
      rw [heval]
      simpa using hst
    · have hcsin : cs' ∈ db.contactScores :=
        hsorted cs' (List.drop_subset _ _ hrest)
      exact (hstage cs' hcsin hcid).1
  · intro db2 cid2 pts2 now2 h
    show scoreToLifecycle _ _ = _
    exact scoreToLifecycle_keep _ _ h
  · intro db2 c now2 h
    show scoreToLifecycle _ _ = _
    exact scoreToLifecycle_keep _ _ h

/-- Scenario store with a zero-score customer and no unsubscribe
events. -/
def dbCustomer : Store :=
  { contacts := [cW],
    contactScores := [{ contactId := "c1", lifecycleStage := "customer",
                        totalScore := 0 }],
    emailEvents := [{ contactId := "c1", eventType := "opened", createdAt := -10 }] }

/-- Witness for C5: the zero-score customer of `dbCustomer` survives a
batch sweep with its stage intact. -/
theorem claim_C5_witness :
    ∃ cs', findScore (processLifecycleBatch dbCustomer 100 0).1 "c1" = some cs'
      ∧ cs'.lifecycleStage = "customer" := by
  have hmain := (claim_C5 dbCustomer "c1" 100 0 (by decide) (by decide)).1
  have heval := evaluateLifecycle_customer_noop dbCustomer "c1" 0 (by decide)
  have hfind : findScore (processLifecycleBatch dbCustomer 100 0).1 "c1"
      = some { contactId := "c1", lifecycleStage := "customer", totalScore := 0 } := by
    simp only [processLifecycleBatch,
      show dbCustomer.contactScores
        = [{ contactId := "c1", lifecycleStage := "customer", totalScore := 0 }] from rfl,
      List.mergeSort_singleton]
    have hstage : (if ("customer" : String) = "" then "new" else "customer") = "customer" := by
      decide
    norm_num [findScore, List.find?, hstage, heval]
  refine ⟨_, hfind, ?_⟩
  have hmem : ({ contactId := "c1", lifecycleStage := "customer", totalScore := 0 } : ContactScore)
      ∈ (processLifecycleBatch dbCustomer 100 0).1.contactScores :=
    List.mem_of_find?_eq_some (by simpa [findScore] using hfind)
  exact hmain _ hmem rfl

/-- The maximum-inactivity threshold configured for a stage: the
`max_inactive_days` of its dormancy rule. -/
def configuredDormancyThreshold (stage : String) : Option ℤ :=
  (DORMANCY_RULES.find? (fun r => r.fromStage = stage)).bind
    (fun r => r.maxInactiveDays)

/-- If the first rule for a stage has a non-zero threshold met by the
contact's inactivity, the dormancy scan returns that rule. -/
theorem dormancyCheck_of_find? (stage : String) (d : ℤ)
    (rules : List TransitionRule) (r : TransitionRule) (m : ℤ)
    (hfind : rules.find? (fun x => x.fromStage = stage) = some r)
    (hmax : r.maxInactiveDays = some m) (hm0 : m ≠ 0) (hle : m ≤ d) :
    dormancyCheck stage (some d) rules = some r := by
  induction rules with
  | nil => simp at hfind
  | cons x xs ih =>
      by_cases hx : x.fromStage = stage
      · rw [List.find?_cons_of_pos _ (by simpa using hx)] at hfind
        have hxr : x = r := by simpa using hfind
        subst hxr
        unfold dormancyCheck
        rw [if_pos ⟨hx, by unfold dormancyFires; rw [hmax]; simp [hm0, hle]⟩]
      · rw [List.find?_cons_of_neg _ (by simpa using hx)] at hfind
        unfold dormancyCheck
        rw [if_neg (fun hcon => hx hcon.1)]
        exact ih hfind

/-- Claim C4: whenever the current stage has a configured maximum-
inactivity threshold and the days-since-last-activity meets or exceeds it,
`evaluate_lifecycle` transitions to dormant — for every score, open/click
count and custom progression rule set, i.e. the dormancy check
short-circuits the progression checks. -/
theorem claim_C4 (db : Store) (cid stage : String) (score : ℚ)
    (customRules : Option (List TransitionRule)) (now : ℚ) (m d : ℤ)
    (hthr : configuredDormancyThreshold stage = some m)
    (hdays : (getContactEngagement db cid 90 now).daysSinceLastActivity = some d)
    (hge : m ≤ d) :
    (evaluateLifecycle db cid stage score customRules now).newStage = "dormant"
    ∧ (evaluateLifecycle db cid stage score customRules now).transitioned = true := by
  obtain ⟨r, hfind, hmax⟩ : ∃ r, DORMANCY_RULES.find?
      (fun x => x.fromStage = stage) = some r ∧ r.maxInactiveDays = some m := by
    cases hf : DORMANCY_RULES.find? (fun x => x.fromStage = stage) with
    | none =>
        rw [configuredDormancyThreshold, hf] at hthr
        simp at hthr
    | some r =>
        refine ⟨r, rfl, ?_⟩
        rw [configuredDormancyThreshold, hf] at hthr
        simpa using hthr
  have hrmem : r ∈ DORMANCY_RULES := List.mem_of_find?_eq_some hfind
  have hm0 : m ≠ 0 := by
    have hall : ∀ x ∈ DORMANCY_RULES, ∀ m' : ℤ,
        x.maxInactiveDays = some m' → ¬(m' = 0) := by decide
    exact hall r hrmem m hmax
  have hto : r.toStage = "dormant" := by
    have hall : ∀ x ∈ DORMANCY_RULES, x.toStage = "dormant" := by decide
    exact hall r hrmem
  have hd := dormancyCheck_of_find? stage d DORMANCY_RULES r m hfind hmax hm0 hge
  simp only [evaluateLifecycle, hdays]
  rw [hd]
  simp [hto]

/-- A subscriber with high score and enough opens for a progression rule,
but 69 days inactive. -/
def dbInactive : Store :=
  { contacts := [cW],
    contactScores := [{ contactId := "c1", lifecycleStage := "subscriber",
                        totalScore := 100 }],
    emailEvents := [{ contactId := "c1", eventType := "opened", createdAt := -70 },
                    { contactId := "c1", eventType := "opened", createdAt := -69 }] }

/-- Witness for C4: the 69-days-inactive subscriber of `dbInactive` goes
dormant even though score 100 and 2 opens satisfy the subscriber→lead
progression rule. -/
theorem claim_C4_witness :
    (evaluateLifecycle dbInactive "c1" "subscriber" 100 none 0).newStage = "dormant"
    ∧ (evaluateLifecycle dbInactive "c1" "subscriber" 100 none 0).transitioned = true :=
  claim_C4 dbInactive "c1" "subscriber" 100 none 0 60 69 (by decide)
    (by norm_num [getContactEngagement, dbInactive, List.filter, List.max?,
      Int.floor_eq_iff])
    (by decide)

/-- An audience with its `exclude_bounced` flag replaced. -/
def setBounced (b : Bool) (a : Audience) : Audience :=
  { a with excludeBounced := b }

/-- A store with every audience row's `exclude_bounced` flag replaced. -/
def setBouncedAll (f : Audience → Bool) (db : Store) : Store :=
  { db with audiences := db.audiences.map (fun x => setBounced (f x) x) }

/-- Claim C10: the `exclude_bounced` flag of an audience is stored but
never applied — flipping it (on the audience itself, or on every stored
audience row) changes neither the matching predicate, nor the estimated
size, nor `get_contacts`, nor `overlap_analysis`; only rules, match type
and the other two exclusion flags matter. -/
theorem claim_C10 (db : Store) (a : Audience) (c : Contact) (b1 b2 : Bool)
    (limit offset : ℕ) (now : ℚ) (idA idB : String) (f : Audience → Bool) :
    (audienceMatches db (setBounced b1 a) c
      = audienceMatches db (setBounced b2 a) c)
    ∧ ((estimateSize db (setBounced b1 a) now).2
      = (estimateSize db (setBounced b2 a) now).2)
    ∧ (getContacts db (setBounced b1 a) limit offset
      = getContacts db (setBounced b2 a) limit offset)
    ∧ (overlapAnalysis (setBouncedAll f db) idA idB
      = overlapAnalysis db idA idB) := by
  refine ⟨rfl, rfl, rfl, ?_⟩
  have hga : ∀ k, getAudience (setBouncedAll f db) k
      = (getAudience db k).map (fun x => setBounced (f x) x) := by
    intro k
    unfold getAudience setBouncedAll
    exact List.find?_map _ _
  unfold overlapAnalysis
  rw [hga idA, hga idB]
  cases getAudience db idA <;> cases getAudience db idB <;> rfl

/-! ## C7: validation of audience rules -/

/-- The audience row assembled by `create_audience`. -/
def mkAudience (newId name : String) (rules : List RuleDef) (mt : String)
    (e1 e2 e3 : Bool) : Audience :=
  { id := newId, name := name, rules := rules, matchType := mt,
    excludeUnsubscribed := e1, excludeSuppressed := e2, excludeBounced := e3 }

/-- A rule using the unimplemented-but-accepted `"between"` operator. -/
def betweenRule : RuleDef := { field := "email", operator := "between" }

/-- A rule using the invalid `"like"` operator. -/
def likeRule : RuleDef := { field := "email", operator := "like" }

/-- A valid `country eq US` rule. -/
def usRule : RuleDef :=
  { field := "country", operator := "eq", value := .ofVal (.s "US") }

/-- The fixed operator vocabulary exactly as the specification lists it
(`eq, neq, contains, starts_with, ends_with, gt, lt, gte, lte, in, not_in,
is_set, not_set`) — written from the spec for comparison with the code's
`VALID_OPERATORS`. -/
def specValidOperators : List String :=
  ["eq", "neq", "contains", "starts_with", "ends_with",
   "gt", "lt", "gte", "lte", "in", "not_in", "is_set", "not_set"]

/-- A rule that is invalid (field or operator outside the code's valid
sets, including the falsy `""`) never validates. -/
theorem validateRule_invalid (r : RuleDef)
    (h : r.field ∉ VALID_FIELDS ∨ r.operator ∉ VALID_OPERATORS) :
    ∃ msg, validateRule r = .error msg := by
  unfold validateRule
  by_cases h1 : r.field = ""
  · rw [if_pos h1]; exact ⟨_, rfl⟩
  rw [if_neg h1]
  by_cases h2 : r.operator = ""
  · rw [if_pos h2]; exact ⟨_, rfl⟩
  rw [if_neg h2]
  by_cases h3 : r.field ∉ VALID_FIELDS
  · rw [if_pos h3]; exact ⟨_, rfl⟩
  rw [if_neg h3]
  by_cases h4 : r.operator ∉ VALID_OPERATORS
  · rw [if_pos h4]; exact ⟨_, rfl⟩
  · exfalso
    rcases h with h | h
    · exact h3 h
    · exact h4 h

/-- The validation loop fails as soon as some rule is invalid. -/
theorem validateRules_error (rules : List RuleDef)
    (h : ∃ r ∈ rules, ∃ msg, validateRule r = .error msg) :
    ∃ msg, validateRules rules = .error msg := by
  induction rules with
  | nil => simp at h
  | cons x xs ih =>
      cases hx : validateRule x with
      | error m => exact ⟨m, by unfold validateRules; rw [hx]⟩
      | ok u =>
          obtain ⟨r, hr, msg, hrmsg⟩ := h
          rcases List.mem_cons.mp hr with rfl | hr'
          · rw [hx] at hrmsg; exact absurd hrmsg (by simp)
          · cases u
            obtain ⟨m, hm⟩ := ih ⟨r, hr', msg, hrmsg⟩
            exact ⟨m, by unfold validateRules; rw [hx]; exact hm⟩

/-- The validation loop succeeds when every rule validates. -/
theorem validateRules_ok (rules : List RuleDef)
    (h : ∀ r ∈ rules, validateRule r = .ok ()) :
    validateRules rules = .ok () := by
  induction rules with
  | nil => rfl
  | cons x xs ih =>
      unfold validateRules
      rw [h x (List.mem_cons_self x xs)]
      exact ih fun r hr => h r (List.mem_cons_of_mem x hr)

/-- Claim C7 counterexample: the operator `"between"` is outside the
specification's fixed operator set, yet `create_audience` accepts a rule
using it (no `ValidationError` is raised, the audience is persisted), and
at query-build time the condition is silently dropped rather than
evaluated or rejected. -/
theorem claim_C7_counterexample :
    "between" ∉ specValidOperators
    ∧ (∃ p, createAudience { } "a1" "Aud" [betweenRule] = .ok p)
    ∧ buildCondition cW betweenRule = none := by
  refine ⟨by decide,
    ⟨({ audiences := [mkAudience "a1" "Aud" [betweenRule] "all" true true true] },
      mkAudience "a1" "Aud" [betweenRule] "all" true true true), rfl⟩,
    by decide⟩

/-- Claim C7 as amended: validation checks membership in the code's valid
sets (the spec's operator set plus `"between"`).  Any rule with a field or
operator outside those sets makes `create_audience` (and `update_audience`
with new rules) fail with a `ValueError` before anything is persisted —
the returned store is unreachable on the error path — while a rule set
passing validation is persisted unchanged. -/
theorem claim_C7 (db : Store) (newId name mt : String) (e1 e2 e3 : Bool)
    (rules : List RuleDef) (audienceId : String) (nm : Option String)
    (mtu : Option String) :
    ((∃ r ∈ rules, r.field ∉ VALID_FIELDS ∨ r.operator ∉ VALID_OPERATORS) →
      (∃ msg, createAudience db newId name rules mt e1 e2 e3 = .error msg)
      ∧ (∀ a0, getAudience db audienceId = some a0 →
          ∃ msg, updateAudience db audienceId nm (some rules) mtu = .error msg))
    ∧ ((∀ r ∈ rules, validateRule r = .ok ()) →
        ∃ a, createAudience db newId name rules mt e1 e2 e3
          = .ok ({ db with audiences := db.audiences ++ [a] }, a)
          ∧ a.rules = rules) := by
  constructor
  · intro h
    obtain ⟨r, hr, hinv⟩ := h
    have herr := validateRules_error rules ⟨r, hr, validateRule_invalid r hinv⟩
    obtain ⟨msg, hmsg⟩ := herr
    constructor
    · exact ⟨msg, by unfold createAudience; rw [hmsg]⟩
    · intro a0 ha0
      refine ⟨msg, ?_⟩
      unfold updateAudience
      rw [ha0]
      simp only [hmsg]
  · intro h
    have hok := validateRules_ok rules h
    refine ⟨mkAudience newId name rules mt e1 e2 e3, ?_, rfl⟩
    unfold createAudience mkAudience
    rw [hok]

/-- Witness for C7: a rule with operator `"like"` (outside both sets) is
rejected by `create_audience` on a concrete store, and the valid rule set
`[country eq]` is accepted and persisted. -/
theorem claim_C7_witness :
    ((∃ msg, createAudience { } "a1" "Aud" [likeRule] = .error msg)
      ∧ (∀ a0, getAudience { } "missing" = some a0 →
          ∃ msg, updateAudience { } "missing" none
            (some [likeRule]) none = .error msg))
    ∧ (∃ a, createAudience { } "a1" "Aud" [usRule]
          = .ok ({ audiences := [a] }, a)
        ∧ a.rules = [usRule]) := by
  constructor
  · exact (claim_C7 { } "a1" "Aud" "all" true true true
      [likeRule] "missing" none none).1
      ⟨likeRule, by decide, by decide⟩
  · obtain ⟨a, ha, hrules⟩ := (claim_C7 { } "a1" "Aud" "all" true true true
      [usRule] "missing" none none).2
      (fun r hr => by rcases List.mem_singleton.mp hr with rfl; rfl)
    exact ⟨a, ha, hrules⟩

/-! ## C8: behaviour on unknown ids -/

/-- Claim C8 counterexample: `overlap_analysis` on an unknown audience id
does not raise at all — it *returns* the `{"error": "Audience not found"}`
payload as a normal value (`.ok` in the exception model), so the claim
that it "fails with NotFound" is false. -/
theorem claim_C8_counterexample :
    overlapAnalysis { } "a" "b" = .ok (.errorDict "Audience not found")
    ∧ ∀ msg, overlapAnalysis { } "a" "b" ≠ .error msg := by
  refine ⟨rfl, ?_⟩
  intro msg h
  rw [show overlapAnalysis { } "a" "b" = .ok (.errorDict "Audience not found")
    from rfl] at h
  exact absurd h (by simp)

/-- Claim C8 as amended: `recalculate_contact_score` on an unknown contact
raises (a `ValueError` the request layer maps to 404/NotFound), while
`overlap_analysis` on a missing audience id returns the error payload
`{"error": "Audience not found"}` instead of raising. -/
theorem claim_C8 (db : Store) (cid idA idB : String) (now : ℚ)
    (hc : findContact db cid = none)
    (ha : getAudience db idA = none ∨ getAudience db idB = none) :
    recalculateContactScore db cid now = .error "Contact not found"
    ∧ overlapAnalysis db idA idB = .ok (.errorDict "Audience not found") := by
  constructor
  · unfold recalculateContactScore
    rw [hc]
  · unfold overlapAnalysis
    rcases ha with ha | hb
    · rw [ha]
      cases getAudience db idB <;> rfl
    · rw [hb]
      cases getAudience db idA <;> rfl

/-- Witness for C8 on the empty store. -/
theorem claim_C8_witness :
    recalculateContactScore { } "ghost" 0 = .error "Contact not found"
    ∧ overlapAnalysis { } "a" "b" = .ok (.errorDict "Audience not found") :=
  claim_C8 { } "ghost" "a" "b" 0 rfl (Or.inl rfl)

/-! ## C6: overlap analysis and size estimation -/

theorem round4_zero : round4 0 = 0 := by simp [round4]

theorem round4_one : round4 1 = 1 := by
  rw [round4, mul_one]
  rw [show ((10000 : ℚ)) = ((10000 : ℤ) : ℚ) by norm_num, round_intCast]
  norm_num

/-- Unfolding of `overlap_analysis` on two existing audiences. -/
theorem overlapAnalysis_eq (db : Store) (idA idB : String) (a b : Audience)
    (hA : getAudience db idA = some a) (hB : getAudience db idB = some b) :
    overlapAnalysis db idA idB = .ok (.stats (audienceIdSet db a).card
      (audienceIdSet db b).card
      ((audienceIdSet db a) ∩ (audienceIdSet db b)).card
      ((audienceIdSet db a) ∪ (audienceIdSet db b)).card
      (if ((audienceIdSet db a) ∪ (audienceIdSet db b)).card = 0 then 0
       else round4 ((((audienceIdSet db a) ∩ (audienceIdSet db b)).card : ℚ)
         / (((audienceIdSet db a) ∪ (audienceIdSet db b)).card : ℚ)))) := by
  unfold overlapAnalysis
  rw [hA, hB]
  rfl

/-- Claim C6 as amended: for two existing audiences, `overlap_analysis`
returns the two sizes, |A∩B|, |A∪B| and the Jaccard index *rounded to 4
decimal places* (0.0 for an empty union); disjoint audiences get
overlap 0 and jaccard 0.0; audiences matching the same contact set get
jaccard 1.0 *provided the common set is non-empty* (two audiences matching
the empty set get 0.0); and `estimate_size` of a rule set matching zero
contacts returns 0. -/
theorem claim_C6 (db : Store) (idA idB : String) (a b : Audience) (now : ℚ)
    (hA : getAudience db idA = some a) (hB : getAudience db idB = some b) :
    (overlapAnalysis db idA idB = .ok (.stats (audienceIdSet db a).card
      (audienceIdSet db b).card
      ((audienceIdSet db a) ∩ (audienceIdSet db b)).card
      ((audienceIdSet db a) ∪ (audienceIdSet db b)).card
      (if ((audienceIdSet db a) ∪ (audienceIdSet db b)).card = 0 then 0
       else round4 ((((audienceIdSet db a) ∩ (audienceIdSet db b)).card : ℚ)
         / (((audienceIdSet db a) ∪ (audienceIdSet db b)).card : ℚ)))))
    ∧ ((audienceIdSet db a) ∩ (audienceIdSet db b) = ∅ →
        overlapAnalysis db idA idB = .ok (.stats (audienceIdSet db a).card
          (audienceIdSet db b).card 0
          ((audienceIdSet db a) ∪ (audienceIdSet db b)).card 0))
    ∧ (audienceIdSet db a = audienceIdSet db b →
        overlapAnalysis db idA idB = .ok (.stats (audienceIdSet db a).card
          (audienceIdSet db a).card (audienceIdSet db a).card
          (audienceIdSet db a).card
          (if (audienceIdSet db a).card = 0 then 0 else 1)))
    ∧ ((∀ c ∈ db.contacts, ¬ audienceMatches db a c) →
        (estimateSize db a now).2 = 0) := by
  have hbase := overlapAnalysis_eq db idA idB a b hA hB
  refine ⟨hbase, ?_, ?_, ?_⟩
  · intro hdisj
    rw [hbase, hdisj]
    simp [round4_zero]
  · intro heq
    rw [hbase, ← heq, Finset.inter_self, Finset.union_self]
    by_cases hzero : (audienceIdSet db a).card = 0
    · rw [hzero]
      norm_num
    · rw [if_neg hzero, if_neg hzero]
      rw [div_self (by exact_mod_cast hzero), round4_one]
  · intro hnone
    unfold estimateSize matchingContacts
    simp only
    rw [List.filter_eq_nil_iff.mpr (by simpa using hnone)]
    rfl

/-- Three contacts and four audiences: `A` matches only `x`, `B` matches
all three, `C` and `D` both match nothing. -/
def cx : Contact := { id := "x", email := "x@e" }

def cy : Contact := { id := "y", email := "y@e" }

def cz : Contact := { id := "z", email := "z@e" }

def audX : Audience :=
  { id := "A", name := "only x",
    rules := [{ field := "email", operator := "eq", value := .ofVal (.s "x@e") }],
    excludeUnsubscribed := false, excludeSuppressed := false }

def audAll : Audience :=
  { id := "B", name := "everyone", rules := [],
    excludeUnsubscribed := false, excludeSuppressed := false }

def audNoneC : Audience :=
  { id := "C", name := "nobody",
    rules := [{ field := "email", operator := "eq", value := .ofVal (.s "missing@e") }],
    excludeUnsubscribed := false, excludeSuppressed := false }

def audNoneD : Audience :=
  { id := "D", name := "nobody too",
    rules := [{ field := "email", operator := "eq", value := .ofVal (.s "missing@e") }],
    excludeUnsubscribed := false, excludeSuppressed := false }

def dbJ : Store :=
  { contacts := [cx, cy, cz], audiences := [audX, audAll, audNoneC, audNoneD] }

/-- Claim C6 counterexample: on `dbJ`, the returned `jaccard_index` of `A`
vs `B` is `0.3333`, which is *not* the Jaccard index `1/3` (it is rounded
to 4 decimals); and `C` and `D` match exactly the same (empty) contact
set, yet their `jaccard_index` is `0.0`, not `1.0`. -/
theorem claim_C6_counterexample :
    (overlapAnalysis dbJ "A" "B" = .ok (.stats 1 3 1 3 (3333 / 10000))
      ∧ (3333 / 10000 : ℚ) ≠ 1 / 3)
    ∧ (audienceIdSet dbJ audNoneC = audienceIdSet dbJ audNoneD
      ∧ getAudience dbJ "C" = some audNoneC
      ∧ getAudience dbJ "D" = some audNoneD
      ∧ overlapAnalysis dbJ "C" "D" = .ok (.stats 0 0 0 0 0)) := by
  have hfl : ⌊(10000 : ℚ) * (1 / 3) + 1 / 2⌋ = 3333 := by
    rw [Int.floor_eq_iff]
    constructor <;> norm_num
  have hj : round4 ((1 : ℚ) / 3) = 3333 / 10000 := by
    rw [round4, round_eq, hfl]
    norm_num
  refine ⟨⟨?_, by norm_num⟩, by decide, rfl, rfl, ?_⟩
  · rw [overlapAnalysis_eq dbJ "A" "B" audX audAll rfl rfl]
    rw [show (audienceIdSet dbJ audX).card = 1 from by decide,
      show (audienceIdSet dbJ audAll).card = 3 from by decide,
      show ((audienceIdSet dbJ audX) ∩ (audienceIdSet dbJ audAll)).card = 1 from by decide,
      show ((audienceIdSet dbJ audX) ∪ (audienceIdSet dbJ audAll)).card = 3 from by decide]
    norm_num [hj]
  · rw [overlapAnalysis_eq dbJ "C" "D" audNoneC audNoneD rfl rfl]
    rw [show (audienceIdSet dbJ audNoneC).card = 0 from by decide,
      show (audienceIdSet dbJ audNoneD).card = 0 from by decide,
      show ((audienceIdSet dbJ audNoneC) ∩ (audienceIdSet dbJ audNoneD)).card = 0 from by decide,
      show ((audienceIdSet dbJ audNoneC) ∪ (audienceIdSet dbJ audNoneD)).card = 0 from by decide]
    norm_num

/-- Witness for C6: the identical empty audiences `C`/`D` of `dbJ` get
jaccard `if 0 = 0 then 0 else 1` (= 0.0), and `estimate_size` of the
zero-match audience `C` is 0. -/
theorem claim_C6_witness :
    ((estimateSize dbJ audNoneC 0).2 = 0)
    ∧ overlapAnalysis dbJ "C" "D" = .ok (.stats (audienceIdSet dbJ audNoneC).card
        (audienceIdSet dbJ audNoneC).card (audienceIdSet dbJ audNoneC).card
        (audienceIdSet dbJ audNoneC).card
        (if (audienceIdSet dbJ audNoneC).card = 0 then 0 else 1)) := by
  constructor
  · exact (claim_C6 dbJ "C" "D" audNoneC audNoneD 0 rfl rfl).2.2.2 (by decide)
  · exact (claim_C6 dbJ "C" "D" audNoneC audNoneD 0 rfl rfl).2.2.1 (by decide)

/-! ## C1: incremental vs full-recompute scoring -/

/-- `record_score_event` at the same instant as the stored
`last_activity_at` yields the maximal recency score. -/
theorem recency_at_now (t : ℚ) : calculateRecencyScore t (some t) = 20 := by
  unfold calculateRecencyScore
  simp

/-- The event row appended by `record_score_event`. -/
def mkEvent (cid ty : String) (pts : ℚ) (rs : String) (rid : Option String)
    (t : ℚ) : ScoreEvent :=
  { contactId := cid, eventType := ty, points := pts, reason := rs,
    ruleId := rid, createdAt := t }

theorem recordScoreEvent_scoreEvents (db : Store) (cid ty rs : String)
    (rid : Option String) (pts t : ℚ) :
    (recordScoreEvent db cid ty pts rs rid t).1.scoreEvents
      = db.scoreEvents ++ [mkEvent cid ty pts rs rid t] := by
  simp only [recordScoreEvent, putScore, mkEvent]
  split_ifs <;> rfl

theorem recordScoreEvent_contacts (db : Store) (cid ty rs : String)
    (rid : Option String) (pts t : ℚ) :
    (recordScoreEvent db cid ty pts rs rid t).1.contacts = db.contacts := by
  simp only [recordScoreEvent, putScore]
  split_ifs <;> rfl

/-- A sequence of `record_score_event` calls, as `(event_type, points,
timestamp)` triples. -/
noncomputable def recordAll (db : Store) (cid : String) :
    List (String × ℚ × ℚ) → Store
  | [] => db
  | (ty, pts, t) :: rest =>
      recordAll (recordScoreEvent db cid ty pts "" none t).1 cid rest

/-- The score event written for one call of the sequence. -/
def mkEv (cid : String) (x : String × ℚ × ℚ) : ScoreEvent :=
  { contactId := cid, eventType := x.1, points := x.2.1, reason := "",
    ruleId := none, createdAt := x.2.2 }

/-- Total points of a call sequence. -/
def sumPts (L : List (String × ℚ × ℚ)) : ℚ := (L.map (fun x => x.2.1)).sum

theorem sumPts_cons (x : String × ℚ × ℚ) (L : List (String × ℚ × ℚ)) :
    sumPts (x :: L) = x.2.1 + sumPts L := by simp [sumPts]

theorem recordAll_contacts (cid : String) (L : List (String × ℚ × ℚ)) :
    ∀ db : Store, (recordAll db cid L).contacts = db.contacts := by
  induction L with
  | nil => intro db; rfl
  | cons x rest ih =>
      intro db
      obtain ⟨ty, pts, t⟩ := x
      show (recordAll (recordScoreEvent db cid ty pts "" none t).1 cid rest).contacts = _
      rw [ih, recordScoreEvent_contacts]

theorem findContact_recordAll (db : Store) (cid x : String)
    (L : List (String × ℚ × ℚ)) :
    findContact (recordAll db cid L) x = findContact db x := by
  unfold findContact
  rw [recordAll_contacts]

theorem eventsOf_recordScoreEvent (db : Store) (cid ty rs : String)
    (rid : Option String) (pts t : ℚ) :
    eventsOf (recordScoreEvent db cid ty pts rs rid t).1 cid
      = eventsOf db cid ++ [mkEvent cid ty pts rs rid t] := by
  unfold eventsOf
  rw [recordScoreEvent_scoreEvents, List.filter_append]
  simp [List.filter, mkEvent]

theorem eventsOf_recordAll (cid : String) (L : List (String × ℚ × ℚ)) :
    ∀ db : Store, eventsOf (recordAll db cid L) cid
      = eventsOf db cid ++ L.map (mkEv cid) := by
  induction L with
  | nil => intro db; simp [recordAll]
  | cons x rest ih =>
      intro db
      obtain ⟨ty, pts, t⟩ := x
      show eventsOf (recordAll (recordScoreEvent db cid ty pts "" none t).1 cid rest) cid = _
      rw [ih, eventsOf_recordScoreEvent]
      simp [mkEv, mkEvent]

/-- Invariant of the incremental path: starting from a row with
nonnegative engagement and zero profile score, a nonempty sequence of
nonnegative-point events yields the row with engagement increased by the
points total, profile still 0, recency 20, and total = engagement +
20. -/
theorem recordAll_invariant (cid : String) (L : List (String × ℚ × ℚ)) :
    ∀ db : Store, (hne : L ≠ []) →
    (∀ x ∈ L, 0 ≤ x.2.1) →
    0 ≤ ((findScore db cid).getD
      { contactId := cid, totalScore := 0, engagementScore := 0 }).engagementScore →
    ((findScore db cid).getD
      { contactId := cid, totalScore := 0, engagementScore := 0 }).profileScore = 0 →
    ∃ cs, findScore (recordAll db cid L) cid = some cs
      ∧ cs.engagementScore = ((findScore db cid).getD
          { contactId := cid, totalScore := 0, engagementScore := 0 }).engagementScore
          + sumPts L
      ∧ cs.profileScore = 0
      ∧ cs.recencyScore = 20
      ∧ cs.totalScore = cs.engagementScore + 20
      ∧ cs.lastActivityAt = some (L.getLast hne).2.2 := by
  induction L with
  | nil => intro db hne; exact absurd rfl hne
  | cons x rest ih =>
      intro db hne hpos hE0 hP0
      obtain ⟨ty, pts, t⟩ := x
      have hpts : 0 ≤ pts := hpos _ (List.mem_cons_self _ _)
      have hfs' := recordScoreEvent_findScore db cid ty "" none pts t
      have hmax : max 0 (((findScore db cid).getD
          { contactId := cid, totalScore := 0, engagementScore := 0 }).engagementScore + pts)
          = ((findScore db cid).getD
          { contactId := cid, totalScore := 0, engagementScore := 0 }).engagementScore + pts :=
        max_eq_right (add_nonneg hE0 hpts)
      have hup_eng : (updatedScore db cid pts t).engagementScore
          = ((findScore db cid).getD
          { contactId := cid, totalScore := 0, engagementScore := 0 }).engagementScore + pts := by
        simp only [updatedScore]
        exact hmax
      have hup_prof : (updatedScore db cid pts t).profileScore = 0 := by
        simp only [updatedScore]
        exact hP0
      have hup_rec : (updatedScore db cid pts t).recencyScore = 20 := by
        simp only [updatedScore]
        exact recency_at_now t
      have hup_tot : (updatedScore db cid pts t).totalScore
          = (updatedScore db cid pts t).engagementScore + 20 := by
        simp only [updatedScore]
        rw [hP0, recency_at_now]
        ring
      have hup_last : (updatedScore db cid pts t).lastActivityAt = some t := by
        simp only [updatedScore]
      cases rest with
      | nil =>
          refine ⟨updatedScore db cid pts t, ?_, ?_, hup_prof, hup_rec, hup_tot, ?_⟩
          · show findScore (recordScoreEvent db cid ty pts "" none t).1 cid = _
            exact hfs'
          · rw [hup_eng, sumPts_cons]
            simp [sumPts]
          · rw [hup_last]
            rfl
      | cons y rest' =>
          have hne' : y :: rest' ≠ [] := by simp
          have hpos' : ∀ z ∈ y :: rest', 0 ≤ z.2.1 :=
            fun z hz => hpos z (List.mem_cons_of_mem _ hz)
          have hgd : ((findScore (recordScoreEvent db cid ty pts "" none t).1 cid).getD
              { contactId := cid, totalScore := 0, engagementScore := 0 })
              = updatedScore db cid pts t := by
            rw [hfs']
            rfl
          obtain ⟨cs, h1, h2, h3, h4, h5, h6⟩ :=
            ih (recordScoreEvent db cid ty pts "" none t).1 hne' hpos'
              (by rw [hgd, hup_eng]; exact add_nonneg hE0 hpts)
              (by rw [hgd]; exact hup_prof)
          refine ⟨cs, h1, ?_, h3, h4, h5, ?_⟩
          · rw [h2, hgd, hup_eng]
            simp only [sumPts_cons]
            ring
          · rw [h6]
            rw [List.getLast_cons hne']

/-- `l.max? = some T` when `T` is a member and an upper bound. -/
theorem max?_eq_of_mem_le (l : List ℚ) (T : ℚ) (h1 : T ∈ l)
    (h2 : ∀ x ∈ l, x ≤ T) : l.max? = some T := by
  have ha : Std.Antisymm (α := ℚ) (· ≤ ·) := ⟨fun h h' => le_antisymm h h'⟩
  rw [List.max?_eq_some_iff]
  · exact ⟨h1, h2⟩
  · exact fun a => le_refl a
  · exact fun a b => max_choice a b
  · exact fun a b c => max_le_iff

/-- Scenario: a `-10` event at time 0 then a `+5` event at time 1 on the
contact of `dbW` (whose profile score is 4). -/
noncomputable def dbC1 : Store :=
  (recordScoreEvent (recordScoreEvent dbW "c1" "manual" (-10) "" none 0).1
    "c1" "manual" 5 "" none 1).1

/-- The materialized row after the two incremental updates: the `-10` was
clamped to 0 on its own, so engagement ends at 5; profile stays at the
fresh-row default 0. -/
def c1Incremental : ContactScore :=
  { contactId := "c1", totalScore := 25, engagementScore := 5, profileScore := 0,
    recencyScore := 20, grade := "D", lifecycleStage := "lead",
    lastActivityAt := some 1, scoreUpdatedAt := some 1 }

/-- The ground-truth recompute of the same data: the event sum `-5` is
floored once to 0, and the profile score is recomputed to 4. -/
def c1Recalc : ContactScore :=
  { contactId := "c1", totalScore := 24, engagementScore := 0, profileScore := 4,
    recencyScore := 20, grade := "F", lifecycleStage := "lead",
    lastActivityAt := some 1, scoreUpdatedAt := some 1 }

theorem findScore_dbC1 : findScore dbC1 "c1" = some c1Incremental := by
  norm_num [dbC1, recordScoreEvent, updatedScore, putScore, findScore, dbW, cW,
    calculateRecencyScore, scoreToGrade, scoreToLifecycle, firstThreshold,
    GRADE_THRESHOLDS, LIFECYCLE_THRESHOLDS, List.find?, c1Incremental, max_def]
  decide

theorem calculateProfileScore_cW : calculateProfileScore cW = 4 := by
  norm_num [calculateProfileScore, cW, nonBlank]
  rw [if_neg (by decide)]
  norm_num

theorem recalculate_dbC1 : recalculateContactScore dbC1 "c1" 1
    = .ok (putScore dbC1 c1Recalc, c1Recalc) := by
  have hfc : findContact dbC1 "c1" = some cW := by
    rw [show dbC1 = (recordScoreEvent (recordScoreEvent dbW "c1" "manual" (-10) "" none 0).1
      "c1" "manual" 5 "" none 1).1 from rfl]
    rw [findContact, recordScoreEvent_contacts, recordScoreEvent_contacts]
    simp [dbW, cW, List.find?]
  have hev : eventsOf dbC1 "c1" = [mkEvent "c1" "manual" (-10) "" none 0,
      mkEvent "c1" "manual" 5 "" none 1] := by
    rw [show dbC1 = (recordScoreEvent (recordScoreEvent dbW "c1" "manual" (-10) "" none 0).1
      "c1" "manual" 5 "" none 1).1 from rfl]
    rw [eventsOf_recordScoreEvent, eventsOf_recordScoreEvent]
    simp [eventsOf, dbW]
  have hrc : recalcScore dbC1 cW 1 = c1Recalc := by
    simp only [recalcScore, lastEventAt, hev, show cW.id = "c1" from rfl,
      findScore_dbC1, calculateProfileScore_cW]
    norm_num [mkEvent, List.max?, calculateRecencyScore,
      scoreToGrade, scoreToLifecycle, firstThreshold, GRADE_THRESHOLDS,
      LIFECYCLE_THRESHOLDS, c1Recalc, c1Incremental, max_def]
  unfold recalculateContactScore
  rw [hfc]
  show Except.ok (putScore dbC1 (recalcScore dbC1 cW 1), recalcScore dbC1 cW 1) = _
  rw [hrc]

/-- Claim C1 counterexample: after the two events of `dbC1` the
incremental materialized row and the full recompute disagree on all of
engagement (5 vs 0: the incremental path clamps after each event, the
recompute floors only the final sum), profile (0 vs 4: the incremental
path never refreshes it) and total (25 vs 24). -/
theorem claim_C1_counterexample :
    findScore dbC1 "c1" = some c1Incremental
    ∧ recalculateContactScore dbC1 "c1" 1 = .ok (putScore dbC1 c1Recalc, c1Recalc)
    ∧ c1Incremental.engagementScore ≠ c1Recalc.engagementScore
    ∧ c1Incremental.profileScore ≠ c1Recalc.profileScore
    ∧ c1Incremental.totalScore ≠ c1Recalc.totalScore := by
  refine ⟨findScore_dbC1, recalculate_dbC1, ?_, ?_, ?_⟩ <;>
    norm_num [c1Incremental, c1Recalc]

/-- Claim C1 as amended: the incremental path agrees with the
ground-truth recompute only under extra conditions — no pre-existing score
row or events, every event's points nonnegative (so the per-event clamp
never fires), the last event is the most recent, and the contact's profile
score is 0 (since the incremental path never refreshes `profile_score`).
Under these conditions the materialized row equals what
`recalculate_contact_score` computes at the time of the last event, on all
of engagement, profile, recency and total. -/
theorem claim_C1 (db : Store) (cid : String) (c : Contact)
    (L : List (String × ℚ × ℚ)) (hne : L ≠ [])
    (hsc : findScore db cid = none)
    (hev : eventsOf db cid = [])
    (hcon : findContact db cid = some c)
    (hprof : calculateProfileScore c = 0)
    (hpos : ∀ x ∈ L, 0 ≤ x.2.1)
    (hlast : ∀ x ∈ L, x.2.2 ≤ (L.getLast hne).2.2) :
    ∃ s1 db2 s2,
      findScore (recordAll db cid L) cid = some s1
      ∧ recalculateContactScore (recordAll db cid L) cid (L.getLast hne).2.2
          = .ok (db2, s2)
      ∧ s1.engagementScore = s2.engagementScore
      ∧ s1.profileScore = s2.profileScore
      ∧ s1.recencyScore = s2.recencyScore
      ∧ s1.totalScore = s2.totalScore := by
  have hE0 : ((findScore db cid).getD
      { contactId := cid, totalScore := 0, engagementScore := 0 }).engagementScore = 0 := by
    rw [hsc]
    rfl
  have hP0 : ((findScore db cid).getD
      { contactId := cid, totalScore := 0, engagementScore := 0 }).profileScore = 0 := by
    rw [hsc]
    rfl
  obtain ⟨s1, h1, h2, h3, h4, h5, h6⟩ :=
    recordAll_invariant cid L db hne hpos (by rw [hE0]) hP0
  rw [hE0, zero_add] at h2
  set T := (L.getLast hne).2.2 with hT
  set dbf := recordAll db cid L with hdbf
  have hcid : c.id = cid := findContact_eq_id hcon
  have hcon' : findContact dbf cid = some c := by
    rw [findContact_recordAll]
    exact hcon
  have hevf : eventsOf dbf cid = L.map (mkEv cid) := by
    rw [hdbf, eventsOf_recordAll, hev]
    rfl
  have hsum : ((eventsOf dbf c.id).map (fun e => e.points)).sum = sumPts L := by
    rw [hcid, hevf, List.map_map]
    rfl
  have hsumpos : 0 ≤ sumPts L := by
    apply List.sum_nonneg
    intro y hy
    obtain ⟨x, hx, rfl⟩ := List.mem_map.mp hy
    exact hpos x hx
  have hlastEv : lastEventAt dbf c.id = some T := by
    unfold lastEventAt
    rw [hcid, hevf, List.map_map]
    apply max?_eq_of_mem_le
    · have : L.getLast hne ∈ L := List.getLast_mem hne
      exact List.mem_map.mpr ⟨L.getLast hne, this, rfl⟩
    · intro x hx
      obtain ⟨z, hz, rfl⟩ := List.mem_map.mp hx
      exact hlast z hz
  have hs2e : (recalcScore dbf c T).engagementScore = sumPts L := by
    simp only [recalcScore]
    rw [hsum]
    exact max_eq_right hsumpos
  have hs2p : (recalcScore dbf c T).profileScore = 0 := by
    simp only [recalcScore]
    exact hprof
  have hs2r : (recalcScore dbf c T).recencyScore = 20 := by
    simp only [recalcScore]
    rw [hlastEv]
    exact recency_at_now T
  have hs2t : (recalcScore dbf c T).totalScore = sumPts L + 20 := by
    simp only [recalcScore]
    rw [hsum, hlastEv, hprof, recency_at_now, max_eq_right hsumpos]
    ring
  refine ⟨s1, putScore dbf (recalcScore dbf c T), recalcScore dbf c T, h1, ?_, ?_, ?_, ?_, ?_⟩
  · unfold recalculateContactScore
    rw [hcon']
  · rw [h2, hs2e]
  · rw [h3, hs2p]
  · rw [h4, hs2r]
  · rw [h5, h2, hs2t]

/-- A contact with a completely empty profile (profile score 0). -/
def cEmpty : Contact := { id := "c2" }

def dbEmptyC : Store := { contacts := [cEmpty] }

/-- Witness for C1: one `+5` event on the empty-profile contact — the
incremental row and the recompute at the same instant agree on all four
components. -/
theorem claim_C1_witness :
    ∃ s1 db2 s2,
      findScore (recordAll dbEmptyC "c2" [("opened", 5, 0)]) "c2" = some s1
      ∧ recalculateContactScore (recordAll dbEmptyC "c2" [("opened", 5, 0)]) "c2" 0
          = .ok (db2, s2)
      ∧ s1.engagementScore = s2.engagementScore
      ∧ s1.profileScore = s2.profileScore
      ∧ s1.recencyScore = s2.recencyScore
      ∧ s1.totalScore = s2.totalScore :=
  claim_C1 dbEmptyC "c2" cEmpty [("opened", 5, 0)] (by decide) rfl rfl rfl
    (by norm_num [calculateProfileScore, cEmpty, nonBlank])
    (by norm_num) (by simp)

/-! ## C3: recency decay -/

theorem recencyDecay_nonneg (d : ℚ) : 0 ≤ recencyDecay d := by
  unfold recencyDecay
  apply div_nonneg _ (by norm_num)
  have h : (0 : ℤ) ≤ round ((2000 : ℝ) * Real.exp (-(3 / 100) * (d : ℝ))) := by
    rw [round_eq]
    apply Int.le_floor.mpr
    have hexp := Real.exp_pos (-(3 / 100) * (d : ℝ))
    push_cast
    nlinarith
  exact_mod_cast h

theorem round_le_2000 (d : ℚ) (hd : 0 ≤ d) :
    round ((2000 : ℝ) * Real.exp (-(3 / 100) * (d : ℝ))) ≤ 2000 := by
  have hdR : (0 : ℝ) ≤ (d : ℝ) := by exact_mod_cast hd
  have hexp1 : Real.exp (-(3 / 100) * (d : ℝ)) ≤ 1 :=
    Real.exp_le_one_iff.mpr (by nlinarith)
  have hexp0 := Real.exp_pos (-(3 / 100) * (d : ℝ))
  rw [round_eq]
  have hlt : ⌊(2000 : ℝ) * Real.exp (-(3 / 100) * (d : ℝ)) + 1 / 2⌋ < 2001 := by
    apply Int.floor_lt.mpr
    push_cast
    nlinarith
  exact Int.lt_add_one_iff.mp hlt

theorem recencyDecay_le_twenty (d : ℚ) (hd : 0 ≤ d) : recencyDecay d ≤ 20 := by
  unfold recencyDecay
  rw [div_le_iff₀ (by norm_num : (0:ℚ) < 100)]
  have h := round_le_2000 d hd
  have : ((round ((2000 : ℝ) * Real.exp (-(3 / 100) * (d : ℝ))) : ℤ) : ℚ)
      ≤ ((2000 : ℤ) : ℚ) := by exact_mod_cast h
  calc ((round ((2000 : ℝ) * Real.exp (-(3 / 100) * (d : ℝ))) : ℤ) : ℚ)
      ≤ ((2000 : ℤ) : ℚ) := this
    _ = 20 * 100 := by norm_num

theorem recencyDecay_antitone (d1 d2 : ℚ) (h : d1 ≤ d2) :
    recencyDecay d2 ≤ recencyDecay d1 := by
  unfold recencyDecay
  have hR : (d1 : ℝ) ≤ (d2 : ℝ) := by exact_mod_cast h
  have hexp : Real.exp (-(3 / 100) * (d2 : ℝ)) ≤ Real.exp (-(3 / 100) * (d1 : ℝ)) :=
    Real.exp_le_exp.mpr (by nlinarith)
  have hround : round ((2000 : ℝ) * Real.exp (-(3 / 100) * (d2 : ℝ)))
      ≤ round ((2000 : ℝ) * Real.exp (-(3 / 100) * (d1 : ℝ))) := by
    rw [round_eq, round_eq]
    exact Int.floor_le_floor (by nlinarith)
  have hc : ((round ((2000 : ℝ) * Real.exp (-(3 / 100) * (d2 : ℝ))) : ℤ) : ℚ)
      ≤ ((round ((2000 : ℝ) * Real.exp (-(3 / 100) * (d1 : ℝ))) : ℤ) : ℚ) := by
    exact_mod_cast hround
  exact (div_le_div_iff_of_pos_right (by norm_num : (0:ℚ) < 100)).mpr hc

/-- Claim C3 as amended: the recency score is 20 at elapsed time ≤ 0
(future-dated activity clamps to the maximum), 0 at ≥ 90 days, and in
between it is `20·e^(−0.03·days)` *rounded to 2 decimal places*; because
of that rounding the function is (non-strictly) antitone in elapsed time,
not strictly decreasing. -/
theorem claim_C3 (now t : ℚ) :
    (now - t ≤ 0 → calculateRecencyScore now (some t) = 20)
    ∧ (90 ≤ now - t → calculateRecencyScore now (some t) = 0)
    ∧ (0 < now - t → now - t < 90 →
        calculateRecencyScore now (some t)
          = (round ((2000 : ℝ) * Real.exp (-(3 / 100) * ((now - t : ℚ) : ℝ))) : ℚ) / 100)
    ∧ Antitone (fun d : ℚ => calculateRecencyScore d (some 0)) := by
  refine ⟨?_, ?_, ?_, ?_⟩
  · intro h
    simp only [calculateRecencyScore]
    rw [if_pos h]
  · intro h
    simp only [calculateRecencyScore]
    by_cases h0 : now - t ≤ 0
    · linarith
    · rw [if_neg h0, if_pos h]
  · intro h1 h2
    simp only [calculateRecencyScore]
    rw [if_neg (not_le.mpr h1), if_neg (not_le.mpr h2)]
    rfl
  · intro d1 d2 h
    simp only [calculateRecencyScore, sub_zero]
    by_cases h2 : d2 ≤ 0
    · rw [if_pos h2, if_pos (le_trans h h2)]
    · rw [if_neg h2]
      by_cases h290 : d2 ≥ 90
      · rw [if_pos h290]
        by_cases h1 : d1 ≤ 0
        · rw [if_pos h1]; norm_num
        · rw [if_neg h1]
          by_cases h190 : d1 ≥ 90
          · rw [if_pos h190]
          · rw [if_neg h190]
            exact recencyDecay_nonneg d1
      · rw [if_neg h290]
        by_cases h1 : d1 ≤ 0
        · rw [if_pos h1]
          exact recencyDecay_le_twenty d2 (le_of_not_le h2)
        · rw [if_neg h1]
          have h190 : ¬(d1 ≥ 90) := fun hc => h290 (le_trans hc h)
          rw [if_neg h190]
          exact recencyDecay_antitone d1 d2 h

/-- Witness for C3: elapsed time 0 scores 20, elapsed time 95 scores 0. -/
theorem claim_C3_witness :
    calculateRecencyScore 0 (some 0) = 20
    ∧ calculateRecencyScore 95 (some 0) = 0 := by
  constructor
  · exact (claim_C3 0 0).1 (by norm_num)
  · exact (claim_C3 95 0).2.1 (by norm_num)

/-- Claim C3 counterexample: on the open interval (0, 90) the recency
score is *not* strictly decreasing — the 2-decimal rounding makes it a
step function, which cannot be injective (hence not strictly antitone) on
an infinite interval while taking integer-hundredth values between 0 and
20. -/
theorem claim_C3_counterexample :
    ¬ StrictAntiOn (fun d : ℚ => calculateRecencyScore d (some 0))
      (Set.Ioo 0 90) := by
  intro hsa
  have hinj := hsa.injOn
  have hfval : ∀ d ∈ Set.Ioo (0 : ℚ) 90, calculateRecencyScore d (some 0)
      = ((round ((2000 : ℝ) * Real.exp (-(3 / 100) * (d : ℝ))) : ℤ) : ℚ) / 100 := by
    intro d hd
    obtain ⟨h1, h2⟩ := hd
    simp only [calculateRecencyScore, sub_zero]
    rw [if_neg (not_le.mpr h1), if_neg (not_le.mpr h2)]
    rfl
  have hginj : Set.InjOn
      (fun d : ℚ => round ((2000 : ℝ) * Real.exp (-(3 / 100) * (d : ℝ))))
      (Set.Ioo 0 90) := by
    intro x hx y hy hxy
    have hxy' : round ((2000 : ℝ) * Real.exp (-(3 / 100) * (x : ℝ)))
        = round ((2000 : ℝ) * Real.exp (-(3 / 100) * (y : ℝ))) := hxy
    apply hinj hx hy
    show calculateRecencyScore x (some 0) = calculateRecencyScore y (some 0)
    rw [hfval x hx, hfval y hy, hxy']
  have himg : (fun d : ℚ => round ((2000 : ℝ) * Real.exp (-(3 / 100) * (d : ℝ))))
      '' (Set.Ioo 0 90) ⊆ Set.Icc (0 : ℤ) 2000 := by
    rintro z ⟨d, ⟨hd1, hd2⟩, rfl⟩
    constructor
    · show (0 : ℤ) ≤ round ((2000 : ℝ) * Real.exp (-(3 / 100) * (d : ℝ)))
      rw [round_eq]
      apply Int.le_floor.mpr
      have hexp := Real.exp_pos (-(3 / 100) * (d : ℝ))
      push_cast
      nlinarith
    · show round ((2000 : ℝ) * Real.exp (-(3 / 100) * (d : ℝ))) ≤ 2000
      exact round_le_2000 d (le_of_lt hd1)
  have hfin : (Set.Ioo (0 : ℚ) 90).Finite :=
    Set.Finite.of_finite_image ((Set.finite_Icc (0 : ℤ) 2000).subset himg) hginj
  exact Set.Ioo_infinite (by norm_num) hfin

end MALite
